import Mathlib

/-!
Verification development for the police-data-intelligence enrichment
pipeline.  The definitions below are a shallow embedding of the Python
sources under `src/`:

* `src/agents/state.py`      — enums and the `EnrichmentState` record;
* `src/agents/coordinate_node.py` — the coordinator and its helpers;
* `src/agents/extract_node.py`    — the extract node (DB access is a
  parameter of the embedding);
* `src/retrieval/search_node.py`  — query construction and the search
  node (the Tavily web call is a parameter);
* `src/validation/validate_node.py` — anchor validation;
* `src/merge/merge_node.py`       — cross-article reconciliation and the
  reference cross-check (the per-article LLM extraction is a parameter);
* `src/agents/graph.py`           — graph wiring, modelled as a step
  relation on (node, state) configurations.

Machine reals (`float` relevance scores, cost) are modelled as `Rat`;
Python `datetime.date` is modelled by a year/month/day record with the
standard civil-calendar day numbering, so that date subtraction agrees
with Python's.  The wall-clock `timestamp` field of `SearchAttempt`
(populated by `datetime.now()`) is not modelled; no other field is
dropped.  `rapidfuzz`'s `fuzz.ratio` (Indel similarity scaled to
[0,100]) and `fuzz.partial_ratio` (best `fuzz.ratio` over substrings of
the longer string) are modelled from their documented definitions as
`fuzzSim` and `fuzzPartialSim`.
-/

set_option maxRecDepth 8000

/-- `DatasetType` from `src/agents/state.py`. -/
inductive DatasetType where
  | CIVILIANS_SHOT
  | OFFICERS_SHOT
deriving DecidableEq, Repr

/-- `SearchStrategyType` from `src/agents/state.py` (declaration order is
the escalation ladder: exact_match, temporal_expanded, entity_dropped). -/
inductive SearchStrategyType where
  | EXACT_MATCH
  | TEMPORAL_EXPANDED
  | ENTITY_DROPPED
deriving DecidableEq, Repr

/-- `PipelineStage` from `src/agents/state.py`. -/
inductive PipelineStage where
  | EXTRACT
  | SEARCH
  | VALIDATE
  | MERGE
  | COMPLETE
  | ESCALATE
deriving DecidableEq, Repr

/-- `ConfidenceLevel` from `src/agents/state.py`. -/
inductive ConfidenceLevel where
  | HIGH
  | MEDIUM
  | LOW
  | NONE
  | PENDING
deriving DecidableEq, Repr

/-- `EscalationReason` from `src/agents/state.py`. -/
inductive EscalationReason where
  | EXTRACTION_ERROR
  | VALIDATION_ERROR
  | MERGE_ERROR
  | CONFLICT
  | COMPOSITE
  | LOW_CONFIDENCE
  | OVERWRITE
  | SOFT_ANCHOR
  | MAX_RETRIES
  | INSUFFICIENT_SOURCES
deriving DecidableEq, Repr

/-- `MediaFeatureField` from `src/agents/state.py`. -/
inductive MediaFeatureField where
  | OFFICER_NAME
  | CIVILIAN_NAME
  | CIVILIAN_AGE
  | CIVILIAN_RACE
  | WEAPON
  | LOCATION_DETAIL
  | TIME_OF_DAY
  | OUTCOME
  | CIRCUMSTANCE
deriving DecidableEq, Repr, Fintype

/-- The string value of a `MediaFeatureField` member (it is a Python
`StrEnum`, so members compare equal to these strings). -/
def MediaFeatureField.val : MediaFeatureField → String
  | .OFFICER_NAME => "officer_name"
  | .CIVILIAN_NAME => "civilian_name"
  | .CIVILIAN_AGE => "civilian_age"
  | .CIVILIAN_RACE => "civilian_race"
  | .WEAPON => "weapon"
  | .LOCATION_DETAIL => "location_detail"
  | .TIME_OF_DAY => "time_of_day"
  | .OUTCOME => "outcome"
  | .CIRCUMSTANCE => "circumstance"

/-- `list(MediaFeatureField)` — the nine fields in declaration order, as
iterated by the merge node. -/
def MEDIA_FEATURE_FIELDS : List MediaFeatureField :=
  [.OFFICER_NAME, .CIVILIAN_NAME, .CIVILIAN_AGE, .CIVILIAN_RACE, .WEAPON,
   .LOCATION_DETAIL, .TIME_OF_DAY, .OUTCOME, .CIRCUMSTANCE]

/-- Python `datetime.date`: a proleptic-Gregorian calendar date. -/
structure Date where
  year : Nat
  month : Nat
  day : Nat
deriving DecidableEq, Repr

/-- Day number of a civil date (valid for `year ≥ 1`), with the epoch at
0000-03-01; consecutive dates get consecutive numbers, so differences
agree with Python `date` subtraction. -/
def Date.toDayNumber (d : Date) : Nat :=
  let y := if d.month ≤ 2 then d.year - 1 else d.year
  let era := y / 400
  let yoe := y % 400
  let mp := if d.month > 2 then d.month - 3 else d.month + 9
  let doy := (153 * mp + 2) / 5 + (d.day - 1)
  let doe := yoe * 365 + yoe / 4 - yoe / 100 + doy
  era * 146097 + doe

/-- `(a - b).days` for Python dates. -/
def dateDiffDays (a b : Date) : Int :=
  (a.toDayNumber : Int) - (b.toDayNumber : Int)

/-- Zero-padded two-digit rendering used by `strftime` for `%m`/`%d`. -/
def pad2 (n : Nat) : String :=
  if n < 10 then "0" ++ toString n else toString n

/-- English month name, as produced by `strftime("%B")`. -/
def monthName : Nat → String
  | 1 => "January"
  | 2 => "February"
  | 3 => "March"
  | 4 => "April"
  | 5 => "May"
  | 6 => "June"
  | 7 => "July"
  | 8 => "August"
  | 9 => "September"
  | 10 => "October"
  | 11 => "November"
  | 12 => "December"
  | _ => ""

/-- `strftime("%Y-%m-%d")`. -/
def Date.fmtISO (d : Date) : String :=
  toString d.year ++ "-" ++ pad2 d.month ++ "-" ++ pad2 d.day

/-- `strftime("%B %Y")`. -/
def Date.fmtMonthYear (d : Date) : String :=
  monthName d.month ++ " " ++ toString d.year

/-- `SearchAttempt` from `src/agents/state.py` (the wall-clock
`timestamp` field is not modelled). -/
structure SearchAttempt where
  query : String
  strategy : SearchStrategyType
  num_results : Nat := 0
  avg_relevance_score : Option Rat
deriving DecidableEq, Repr

/-- `Article` from `src/agents/state.py`. -/
structure Article where
  url : String
  title : String
  snippet : String
  published_date : Option Date := none
  source_name : Option String := none
  content : Option String := none
  relevance_score : Rat := 0
deriving DecidableEq, Repr

/-- `DetectedEntity` from `src/agents/state.py`. -/
structure DetectedEntity where
  entity_type : String
  value : String
  context : Option String := none
deriving DecidableEq, Repr

/-- `FieldExtraction` from `src/agents/state.py`. -/
structure FieldExtraction where
  field_name : String
  value : Option String
  confidence : ConfidenceLevel
  sources : List String := []
  source_quotes : List String := []
  extraction_method : String := "llm"
  llm_reasoning : Option String := none
deriving DecidableEq, Repr

/-- `ValidationResult` from `src/agents/state.py`. -/
structure ValidationResult where
  article : Article
  date_match : Bool := false
  location_match : Bool := false
  victim_name_match : Option Bool := none
  passed : Bool := false
deriving DecidableEq, Repr

/-- `EnrichmentState` from `src/agents/state.py`. -/
structure EnrichmentState where
  incident_id : String
  dataset_type : DatasetType
  officer_name : Option String := none
  civilian_name : Option String := none
  incident_date : Option Date := none
  location : Option String := none
  severity : Option String := none
  search_attempts : List SearchAttempt := []
  retrieved_articles : List Article := []
  validation_results : List ValidationResult := []
  extracted_fields : List FieldExtraction := []
  conflicting_fields : Option (List String) := none
  retry_count : Nat := 0
  max_retries : Nat := 3
  next_strategy : SearchStrategyType := .EXACT_MATCH
  current_stage : PipelineStage := .EXTRACT
  next_stage : PipelineStage := .EXTRACT
  escalation_reason : Option EscalationReason := none
  requires_human_review : Bool := false
  output_file_path : Option String := none
  reasoning_summary : Option String := none
  cost_usd : Rat := 0
  error_message : Option String := none
deriving DecidableEq, Repr

/-- `FIELD_TO_STATE_ATTR` from `src/agents/state.py`: the attribute name
on `EnrichmentState` holding the baseline value for a field, for the two
fields that have one. -/
def FIELD_TO_STATE_ATTR : MediaFeatureField → Option String
  | .OFFICER_NAME => some "officer_name"
  | .CIVILIAN_NAME => some "civilian_name"
  | _ => none

/-- `getattr(state, attr)` for the attribute names stored in
`FIELD_TO_STATE_ATTR`. -/
def getStateAttr (s : EnrichmentState) (attr : String) : Option String :=
  if attr = "officer_name" then s.officer_name
  else if attr = "civilian_name" then s.civilian_name
  else none

/-- Python truthiness of an optional string: `None` and `""` are falsy. -/
def pyTruthy : Option String → Bool
  | none => false
  | some t => decide (t ≠ "")

/-- Python `needle in hay` on strings (substring containment), on the
underlying character lists. -/
def containsSub (hay needle : List Char) : Bool :=
  hay.tails.any (fun t => needle.isPrefixOf t)

/-- Python `state.error_message and prefix in state.error_message`. -/
def errorContains (em : Option String) (needle : String) : Bool :=
  match em with
  | none => false
  | some m => containsSub m.data needle.data

/-- Fuel-indexed longest-common-subsequence length (structural recursion
on the fuel so that it evaluates by kernel reduction; the fuel is never
exhausted when it starts at `|a| + |b|`). -/
def lcsFuel : Nat → List Char → List Char → Nat
  | _, [], _ => 0
  | _, _ :: _, [] => 0
  | 0, _ :: _, _ :: _ => 0
  | fuel + 1, a :: as, b :: bs =>
      if a = b then lcsFuel fuel as bs + 1
      else max (lcsFuel fuel (a :: as) bs) (lcsFuel fuel as (b :: bs))

/-- Length of a longest common subsequence; basis of rapidfuzz's Indel
distance (`dist = |a| + |b| - 2 * lcs`). -/
def lcs (a b : List Char) : Nat := lcsFuel (a.length + b.length) a b

/-- `rapidfuzz.fuzz.ratio`: normalized Indel similarity scaled to
[0, 100].  Two empty strings score 100. -/
def fuzzSim (a b : List Char) : Rat :=
  if a.length + b.length = 0 then 100
  else mkRat (100 * (2 * lcs a b)) (a.length + b.length)

/-- `fuzz.ratio` applied to a Python value that may be `None`
(rapidfuzz returns 0 when an argument is `None`). -/
def fuzzSimOpt (a : String) : Option String → Rat
  | none => 0
  | some b => fuzzSim a.data b.data

/-- All contiguous sublists of a list. -/
def allInfixes (l : List Char) : List (List Char) :=
  l.tails.flatMap List.inits

/-- `rapidfuzz.fuzz.partial_ratio`: the best `fuzz.ratio` between the
shorter string and the substrings of the longer one. -/
def fuzzPartialSim (a b : List Char) : Rat :=
  let short := if a.length ≤ b.length then a else b
  let long := if a.length ≤ b.length then b else a
  (allInfixes long).foldr (fun u m => max (fuzzSim short u) m) 0

/-- Python `str.lower()` (ASCII case folding suffices here). -/
def strLower (s : String) : String :=
  String.mk (s.data.map Char.toLower)

/-! ### Validate node (`src/validation/validate_node.py`) -/

/-- `check_location_match`: fuzzy partial match (case-insensitive) at
threshold 80; `False` when either side is `None`. -/
def check_location_match (article_location : Option String)
    (location : Option String) : Bool :=
  match article_location, location with
  | some al, some loc =>
      decide ((80 : Rat) ≤ fuzzPartialSim (strLower al).data (strLower loc).data)
  | _, _ => false

/-- `check_name_match`: same fuzzy partial rule for names. -/
def check_name_match (article_name : Option String)
    (name : Option String) : Bool :=
  match article_name, name with
  | some an, some n =>
      decide ((80 : Rat) ≤ fuzzPartialSim (strLower an).data (strLower n).data)
  | _, _ => false

/-- `check_date_match`: |article_date − incident_date| ≤ 3 days; `False`
when either date is `None`. -/
def check_date_match (article_date : Option Date)
    (incident_date : Option Date) : Bool :=
  match article_date, incident_date with
  | some a, some i => decide ((dateDiffDays a i).natAbs ≤ 3)
  | _, _ => false

/-- Python `article.content or article.title` (`or` takes the title when
the content is `None` or the empty string). -/
def articleText (article : Article) : String :=
  match article.content with
  | some c => if c.isEmpty then article.title else c
  | none => article.title

/-- The body of `validate_node`'s per-article loop. -/
def validateArticle (s : EnrichmentState) (article : Article) : ValidationResult :=
  let date_match := check_date_match article.published_date s.incident_date
  let location_match := check_location_match (some (articleText article)) s.location
  let victim_name_match :=
    match s.civilian_name with
    | none => none
    | some _ => some (check_name_match (some (articleText article)) s.civilian_name)
  { article := article
    date_match := date_match
    location_match := location_match
    victim_name_match := victim_name_match
    passed := date_match && location_match }

/-- `validate_node`.  The Python body sits in a `try`, but it is total
(no operation in it can raise), so only the success path is modelled. -/
def validate_node (s : EnrichmentState) : EnrichmentState :=
  { s with validation_results := s.retrieved_articles.map (validateArticle s),
           current_stage := .VALIDATE }

/-! ### Search node (`src/retrieval/search_node.py`) -/

/-- One entry of the Tavily response `results` array. -/
structure TavilyResult where
  url : String
  title : String
  content : String
  score : Rat
deriving DecidableEq, Repr

/-- `_convert_tavily_result`: snippet is the first 500 characters of the
content. -/
def convertTavilyResult (result : TavilyResult) : Article :=
  { url := result.url
    title := result.title
    snippet := String.mk (result.content.data.take 500)
    content := some result.content
    relevance_score := result.score }

/-- `build_search_query`.  The result is `none` exactly when
`state.incident_date` is `None`, in which case the Python code raises
`AttributeError` from `incident_date.strftime` inside the strategy
branch. -/
def build_search_query (s : EnrichmentState) (strategy : SearchStrategyType) :
    Option String :=
  let branch : Option (String × Option String × Option String) :=
    match strategy with
    | .EXACT_MATCH =>
        s.incident_date.map (fun dt => (dt.fmtISO, s.officer_name, s.civilian_name))
    | .TEMPORAL_EXPANDED =>
        s.incident_date.map (fun dt => (dt.fmtMonthYear, s.officer_name, s.civilian_name))
    | .ENTITY_DROPPED =>
        s.incident_date.map (fun dt => (dt.fmtMonthYear, some "", some ""))
  match branch with
  | none => none
  | some (date, officer, civilian) =>
      let search_query :=
        (if pyTruthy s.location then [s.location.getD ""] else [])
        ++ ["Texas police shooting"]
        ++ [date]
        ++ (if pyTruthy officer then [officer.getD ""] else [])
        ++ (if pyTruthy civilian then [civilian.getD ""] else [])
        ++ (if s.severity = some "fatal" then [s.severity.getD ""] else [])
      some (String.intercalate " " search_query)

/-- `search_node`, with the Tavily call abstracted as an `Except` input.
`build_search_query` runs before the `try` block, so a `none` query
(null `incident_date`) makes the whole node raise: result `none`. -/
def search_node (tavily : Except String (List TavilyResult))
    (s : EnrichmentState) : Option EnrichmentState :=
  let strategy := s.next_strategy
  match build_search_query s strategy with
  | none => none
  | some search_query =>
      let afterTry : EnrichmentState × Nat × Option Rat :=
        match tavily with
        | .ok results =>
            let tavily_articles := results.map convertTavilyResult
            let num_results := tavily_articles.length
            let avg_relevance_score : Option Rat :=
              if num_results ≠ 0 then
                some ((tavily_articles.foldl
                        (fun acc article => acc + article.relevance_score) 0)
                      / (num_results : Rat))
              else none
            ({ s with retrieved_articles := tavily_articles },
             num_results, avg_relevance_score)
        | .error e =>
            ({ s with error_message := some ("Search failed: " ++ e),
                      current_stage := .SEARCH,
                      retrieved_articles := [] },
             0, none)
      let current_search_attempt : SearchAttempt :=
        { query := search_query
          strategy := strategy
          num_results := afterTry.2.1
          avg_relevance_score := afterTry.2.2 }
      some { afterTry.1 with
              search_attempts := afterTry.1.search_attempts ++ [current_search_attempt],
              current_stage := .SEARCH }

/-! ### Merge node (`src/merge/merge_node.py`) -/

/-- `RAPIDFUZZ_THRESHOLD`. -/
def RAPIDFUZZ_THRESHOLD : Rat := 80

/-- Distinct elements in order of first occurrence (the distinct values
a Python `set`/`Counter` of the list ranges over). -/
def firstUniques (vs : List String) : List String :=
  vs.foldl (fun acc v => if v ∈ acc then acc else acc ++ [v]) []

/-- `collections.Counter(vs).most_common(1)[0][0]`: among the distinct
values (in first-occurrence order) the first with maximal count. -/
def mostCommon (vs : List String) : String :=
  match firstUniques vs with
  | [] => ""
  | v :: rest => rest.foldl (fun best u => if vs.count best < vs.count u then u else best) v

/-- `check_articles_match`: cross-article consistency for one field. -/
def check_articles_match (_field : MediaFeatureField)
    (extracted_results : List FieldExtraction) : Bool × Option FieldExtraction :=
  let non_null_results := extracted_results.filter (fun r => r.value.isSome)
  let non_null_values := non_null_results.filterMap (fun r => r.value)
  match non_null_results with
  | [] => (false, none)
  | result :: rest =>
    if rest.isEmpty then
      -- Single extraction
      (true, some { result with confidence := .MEDIUM })
    else if (firstUniques non_null_values).length = 1 then
      -- All agree
      (true, some { result with confidence := .HIGH })
    else
      let most_common := mostCommon non_null_values
      let others := (firstUniques non_null_values).filter (fun v => v ≠ most_common)
      if others.all (fun other =>
          decide (RAPIDFUZZ_THRESHOLD ≤ fuzzSim most_common.data other.data)) then
        -- Minor difference: return the most common
        match (result :: rest).find? (fun r => decide (r.value = some most_common)) with
        | some winner => (true, some { winner with confidence := .MEDIUM })
        | none => (false, none)  -- unreachable: most_common occurs among the values
      else
        (false, none)

/-- `check_reference_match`: compare the converged extraction against the
baseline DB value; on a match, the extraction's value is overwritten with
the baseline string. -/
def check_reference_match (_field : MediaFeatureField)
    (extracted_field : FieldExtraction) (reference : Option String) :
    Bool × Option FieldExtraction :=
  match reference with
  | none => (true, some extracted_field)
  | some ref =>
      if fuzzSimOpt ref extracted_field.value < RAPIDFUZZ_THRESHOLD then
        (false, none)
      else
        (true, some { extracted_field with value := some ref })

/-- One iteration of `merge_node`'s consistency loop for a single field:
returns the extraction appended to `extracted_fields` (if any) and
whether the field name is appended to `conflicting_fields`. -/
def mergeFieldOutcome (s : EnrichmentState) (field_name : MediaFeatureField)
    (extraction : List FieldExtraction) : Option FieldExtraction × Bool :=
  if extraction.isEmpty then (none, false)  -- skip empty list
  else
    let articles_match := check_articles_match field_name extraction
    if articles_match.1 then  -- merge success
      match articles_match.2 with
      | some conv =>
          match FIELD_TO_STATE_ATTR field_name with
          | some attr =>
              let reference := getStateAttr s attr
              let reference_match := check_reference_match field_name conv reference
              if reference_match.1 then
                match reference_match.2 with
                | some e => (some e, false)  -- appended object was mutated in place
                | none => (some conv, false)  -- unreachable: success carries an extraction
              else
                -- conflict between reference and extraction: log it, but the
                -- (unmutated) converged extraction is still appended
                (some conv, true)
          | none => (some conv, false)
      | none => (none, false)  -- unreachable: check_articles_match pairs true with some
    else
      (none, true)  -- log conflicting field

/-- `merge_node`'s success path (no exception), with the per-article LLM
extraction abstracted: `extractions_by_field` maps each field to the
grouped `FieldExtraction` list.  `conflicting_fields` is reset to `[]`,
`extracted_fields` is appended to. -/
def merge_node (s : EnrichmentState)
    (extractions_by_field : MediaFeatureField → List FieldExtraction) :
    EnrichmentState :=
  let res := MEDIA_FEATURE_FIELDS.foldl
    (fun (acc : List FieldExtraction × List String) field_name =>
      let r := mergeFieldOutcome s field_name (extractions_by_field field_name)
      (acc.1 ++ r.1.toList, acc.2 ++ (if r.2 then [field_name.val] else [])))
    ([], [])
  { s with extracted_fields := s.extracted_fields ++ res.1,
           conflicting_fields := some res.2,
           current_stage := .MERGE }

/-- `merge_node`'s exception path ("Merge failed"). -/
def merge_node_failed (s : EnrichmentState) (msg : String) : EnrichmentState :=
  { s with extracted_fields := [],
           conflicting_fields := none,
           error_message := some ("Merge failed: " ++ msg),
           current_stage := .MERGE }

/-! ### Coordinator (`src/agents/coordinate_node.py`) -/

/-- `AVG_RELEVANCE_SCORE_THRESHOLD = 0.5`. -/
def AVG_RELEVANCE_SCORE_THRESHOLD : Rat := 1 / 2

/-- `STRATEGY_ORDER = list(SearchStrategyType)`. -/
def STRATEGY_ORDER : List SearchStrategyType :=
  [.EXACT_MATCH, .TEMPORAL_EXPANDED, .ENTITY_DROPPED]

/-- `check_extract_results`: gate after the extract stage. -/
def check_extract_results (s : EnrichmentState) : EnrichmentState :=
  if errorContains s.error_message "Extract failed" then
    { s with escalation_reason := some .EXTRACTION_ERROR,
             requires_human_review := true,
             next_stage := .ESCALATE }
  else if !(pyTruthy s.civilian_name || pyTruthy s.officer_name
            || s.incident_date.isSome) then
    { s with escalation_reason := some .INSUFFICIENT_SOURCES,
             requires_human_review := true,
             next_stage := .ESCALATE }
  else
    { s with next_stage := .SEARCH }

/-- `retry_helper`: advance to the next strategy in `STRATEGY_ORDER`, or
escalate with MAX_RETRIES when none remains. -/
def retry_helper (s : EnrichmentState) : EnrichmentState :=
  let current_index := STRATEGY_ORDER.indexOf s.next_strategy
  let next_index := current_index + 1
  if STRATEGY_ORDER.length ≤ next_index then
    { s with next_stage := .ESCALATE,
             escalation_reason := some .MAX_RETRIES,
             requires_human_review := true }
  else
    { s with retry_count := s.retry_count + 1,
             next_strategy := STRATEGY_ORDER.getD next_index .EXACT_MATCH,
             next_stage := .SEARCH }

/-- The Python truthiness chain
`state.search_attempts and state.search_attempts[-1].avg_relevance_score
and state.search_attempts[-1].avg_relevance_score >= 0.5`
(an empty list, a `None` score and a `0.0` score are all falsy). -/
def lastAttemptScoreOK (search_attempts : List SearchAttempt) : Bool :=
  match search_attempts.getLast? with
  | none => false
  | some a =>
      match a.avg_relevance_score with
      | none => false
      | some r => decide (r ≠ 0) && decide (AVG_RELEVANCE_SCORE_THRESHOLD ≤ r)

/-- `check_search_results`: gate after the search stage. -/
def check_search_results (s : EnrichmentState) : EnrichmentState :=
  if s.retry_count ≤ s.max_retries then
    if errorContains s.error_message "Search failed" then
      retry_helper s
    else if lastAttemptScoreOK s.search_attempts then
      { s with next_stage := .VALIDATE }
    else
      retry_helper s
  else
    { s with next_stage := .ESCALATE,
             escalation_reason := some .MAX_RETRIES,
             requires_human_review := true }

/-- `check_validate_results`: gate after the validate stage. -/
def check_validate_results (s : EnrichmentState) : EnrichmentState :=
  if s.validation_results.any (fun vr => vr.passed) then
    { s with next_stage := .MERGE }
  else
    { s with escalation_reason := some .VALIDATION_ERROR,
             requires_human_review := true,
             next_stage := .ESCALATE }

/-- Python truthiness of `state.conflicting_fields` (`None` and `[]` are
falsy). -/
def conflictingTruthy : Option (List String) → Bool
  | some (_ :: _) => true
  | _ => false

/-- `check_merge_results`: gate after the merge stage. -/
def check_merge_results (s : EnrichmentState) : EnrichmentState :=
  if errorContains s.error_message "Merge failed" then
    { s with escalation_reason := some .MERGE_ERROR,
             requires_human_review := true,
             next_stage := .ESCALATE }
  else if conflictingTruthy s.conflicting_fields then
    { s with escalation_reason := some .CONFLICT,
             requires_human_review := true,
             next_stage := .ESCALATE }
  else if s.extracted_fields.isEmpty then
    { s with escalation_reason := some .INSUFFICIENT_SOURCES,
             requires_human_review := true,
             next_stage := .ESCALATE }
  else
    { s with next_stage := .COMPLETE }

/-- `coordinate_node`: dispatch on `current_stage`; unexpected stages
return the state unchanged. -/
def coordinate_node (s : EnrichmentState) : EnrichmentState :=
  match s.current_stage with
  | .EXTRACT => check_extract_results s
  | .SEARCH => check_search_results s
  | .VALIDATE => check_validate_results s
  | .MERGE => check_merge_results s
  | _ => s

/-! ### Extract node (`src/agents/extract_node.py`) -/

/-- The dictionary returned by `fetch_incident` (severity is always one
of "fatal" / "non-fatal" / "unknown"). -/
structure FetchResult where
  officer_name : Option String
  civilian_name : Option String
  incident_date : Option Date
  location : Option String
  severity : String
deriving DecidableEq, Repr

/-- `extract_node`, with the DB lookup abstracted as an `Except` input
(the `except` branch covers DB errors, bad `incident_id` strings and
missing rows). -/
def extract_node (fetched : Except String FetchResult) (s : EnrichmentState) :
    EnrichmentState :=
  match fetched with
  | .ok d =>
      { s with officer_name := d.officer_name,
               civilian_name := d.civilian_name,
               incident_date := d.incident_date,
               location := d.location,
               severity := some d.severity,
               current_stage := .EXTRACT }
  | .error e =>
      { s with error_message := some ("Extract failed: " ++ e),
               current_stage := .EXTRACT }

/-! ### Graph wiring (`src/agents/graph.py`) -/

/-- The nodes of the LangGraph workflow (`terminal` stands for END). -/
inductive GraphNode where
  | extract
  | search
  | validate
  | merge
  | coordinate
  | complete
  | escalate
  | terminal
deriving DecidableEq, Repr

/-- `route_after_coordinator`: conditional routing on `next_stage`, with
a fallback to `escalate` for stages outside the listed five. -/
def route_after_coordinator (s : EnrichmentState) : GraphNode :=
  match s.next_stage with
  | .SEARCH => .search
  | .VALIDATE => .validate
  | .MERGE => .merge
  | .COMPLETE => .complete
  | .ESCALATE => .escalate
  | .EXTRACT => .escalate

/-- `complete_node`: terminal node for enriched records. -/
def complete_node (s : EnrichmentState) : EnrichmentState :=
  { s with current_stage := .COMPLETE,
           requires_human_review := false,
           output_file_path := some "pending",
           reasoning_summary := some "pending" }

/-- `escalate_node`: terminal node for records needing human review. -/
def escalate_node (s : EnrichmentState) : EnrichmentState :=
  { s with current_stage := .ESCALATE,
           requires_human_review := true,
           output_file_path := some "pending",
           reasoning_summary := some "pending" }

/-- One transition of the compiled graph on (node, state) configurations.
Processing nodes feed the coordinator; the coordinator's conditional edge
follows `route_after_coordinator`; terminals feed END.  External effects
(DB fetch, Tavily call, LLM extraction, merge-stage exception text) are
existential parameters of the corresponding steps.  A search invocation
on a state with null `incident_date` raises out of the node
(`search_node … = none`), so no transition exists there. -/
inductive PipelineStep :
    GraphNode × EnrichmentState → GraphNode × EnrichmentState → Prop where
  | extract (fetched : Except String FetchResult) (s : EnrichmentState) :
      PipelineStep (.extract, s) (.coordinate, extract_node fetched s)
  | search (tavily : Except String (List TavilyResult)) (s s' : EnrichmentState)
      (h : search_node tavily s = some s') :
      PipelineStep (.search, s) (.coordinate, s')
  | validate (s : EnrichmentState) :
      PipelineStep (.validate, s) (.coordinate, validate_node s)
  | mergeOk (extractions_by_field : MediaFeatureField → List FieldExtraction)
      (s : EnrichmentState) :
      PipelineStep (.merge, s) (.coordinate, merge_node s extractions_by_field)
  | mergeFailed (msg : String) (s : EnrichmentState) :
      PipelineStep (.merge, s) (.coordinate, merge_node_failed s msg)
  | coordinate (s : EnrichmentState) :
      PipelineStep (.coordinate, s)
        (route_after_coordinator (coordinate_node s), coordinate_node s)
  | complete (s : EnrichmentState) :
      PipelineStep (.complete, s) (.terminal, complete_node s)
  | escalate (s : EnrichmentState) :
      PipelineStep (.escalate, s) (.terminal, escalate_node s)

/-- Configurations reachable in a traversal started at the START edge
into `extract` with initial state `s0`. -/
def Reachable (s0 : EnrichmentState) (c : GraphNode × EnrichmentState) : Prop :=
  Relation.ReflTransGen PipelineStep (.extract, s0) c

/-! ### Lemmas about the fuzzy measures -/

theorem lcsFuel_self (v : List Char) :
    ∀ fuel, v.length + v.length ≤ fuel → lcsFuel fuel v v = v.length := by
  induction v with
  | nil => intro fuel _; simp [lcsFuel]
  | cons a as ih =>
      intro fuel h
      simp only [List.length_cons] at h
      obtain ⟨f, rfl⟩ : ∃ f, fuel = f + 1 := ⟨fuel - 1, by omega⟩
      simp only [lcsFuel, if_pos rfl]
      rw [ih f (by omega)]
      simp

theorem lcs_self (v : List Char) : lcs v v = v.length := by
  unfold lcs
  exact lcsFuel_self v _ le_rfl

theorem fuzzSim_self (v : List Char) : fuzzSim v v = 100 := by
  unfold fuzzSim
  rcases Nat.eq_zero_or_pos v.length with h | h
  · simp [h]
  · have hne : v.length + v.length ≠ 0 := by omega
    rw [if_neg hne, lcs_self, Rat.mkRat_eq_div]
    have hq : ((v.length + v.length : Nat) : Rat) ≠ 0 := by
      exact_mod_cast hne
    rw [div_eq_iff hq]
    push_cast
    ring

theorem mem_allInfixes (u l : List Char) (h : u <:+: l) : u ∈ allInfixes l := by
  rcases List.infix_iff_prefix_suffix.mp h with ⟨t, hpre, hsuf⟩
  unfold allInfixes
  rw [List.mem_flatMap]
  exact ⟨t, (List.mem_tails t l).mpr hsuf, (List.mem_inits u t).mpr hpre⟩

theorem le_foldr_max (s : List Char) (l : List (List Char)) (u : List Char)
    (h : u ∈ l) : fuzzSim s u ≤ l.foldr (fun v m => max (fuzzSim s v) m) 0 := by
  induction l with
  | nil => cases h
  | cons a as ih =>
      rcases List.mem_cons.mp h with rfl | h
      · exact le_max_left _ _
      · exact le_trans (ih h) (le_max_right _ _)

/-- Substring containment implies the partial similarity is at least any
bound below 100 (in particular the threshold 80). -/
theorem fuzzPartialSim_of_substring (a b : List Char) (h : b <:+: a) :
    (100 : Rat) ≤ fuzzPartialSim a b := by
  unfold fuzzPartialSim
  have hlen := h.length_le
  by_cases hc : a.length ≤ b.length
  · have heq : b = a := h.eq_of_length (Nat.le_antisymm hlen hc)
    subst heq
    simp only [if_pos hc]
    have := le_foldr_max b (allInfixes b) b (mem_allInfixes b b (List.infix_refl b))
    rw [fuzzSim_self] at this
    exact this
  · simp only [if_neg hc]
    have := le_foldr_max b (allInfixes a) b (mem_allInfixes b a h)
    rw [fuzzSim_self] at this
    exact this

/-! ### Claim C5: which fuzzy measure each check uses -/

/-- C5 counterexample: "ab" is a substring of "ab cd ef gh" (case
already folded), and the Validate location check counts the pair as a
match, but the Merge node's plurality check and reference cross-check —
which call `fuzz.ratio`, not the partial-ratio measure — score the pair
below the threshold 80 and do not count it as a match.  So the
similarity compared against 80 is not the same partial-ratio measure
everywhere, and substring containment does not imply a match in the
Merge checks. -/
theorem fuzzy_measure_not_uniform_cex :
    containsSub "ab cd ef gh".data "ab".data = true
    ∧ check_location_match (some "ab cd ef gh") (some "ab") = true
    ∧ fuzzSim "ab".data "ab cd ef gh".data < RAPIDFUZZ_THRESHOLD
    ∧ check_articles_match .WEAPON
        [{ field_name := "weapon", value := some "ab", confidence := .PENDING },
         { field_name := "weapon", value := some "ab", confidence := .PENDING },
         { field_name := "weapon", value := some "ab cd ef gh", confidence := .PENDING }]
        = (false, none)
    ∧ check_reference_match .OFFICER_NAME
        { field_name := "officer_name", value := some "ab cd ef gh", confidence := .MEDIUM }
        (some "ab") = (false, none) := by
  decide

/-- C5 (amended): the Validate node's location and name checks use the
case-insensitive partial-ratio measure, for which substring containment
(after case folding) forces a match at threshold 80; the Merge node's
plurality check and reference cross-check instead use the full-ratio
measure (`fuzz.ratio`), which scores 100 on identical strings but can
score a substring pair below 80, so substring containment does not
imply a match there. -/
theorem fuzzy_measures_spec :
    (∀ a b : String, (strLower b).data <:+: (strLower a).data →
        check_location_match (some a) (some b) = true)
    ∧ (∀ a b : String, (strLower b).data <:+: (strLower a).data →
        check_name_match (some a) (some b) = true)
    ∧ (∀ v : List Char, fuzzSim v v = 100)
    ∧ fuzzSim "ab".data "ab cd ef gh".data < RAPIDFUZZ_THRESHOLD := by
  refine ⟨fun a b h => ?_, fun a b h => ?_, fuzzSim_self, by decide⟩
  · simp only [check_location_match, decide_eq_true_eq]
    exact le_trans (by norm_num) (fuzzPartialSim_of_substring _ _ h)
  · simp only [check_name_match, decide_eq_true_eq]
    exact le_trans (by norm_num) (fuzzPartialSim_of_substring _ _ h)

/-- Witness for the amended C5 theorem at concrete inputs. -/
theorem fuzzy_measures_spec_witness :
    check_location_match (some "in dal tx") (some "dal") = true
    ∧ check_name_match (some "shot j doe") (some "j doe") = true :=
  ⟨fuzzy_measures_spec.1 "in dal tx" "dal" (by decide),
   fuzzy_measures_spec.2.1 "shot j doe" "j doe" (by decide)⟩

/-! ### Claim C9: query construction -/

/-- The token list of spec §4.2.1, written from the claim's words: the
location when set, the literal "Texas police shooting", a date token
(ISO for EXACT_MATCH, "Month YYYY" otherwise), officer then civilian
name when present except under ENTITY_DROPPED, and "fatal" iff the
severity equals "fatal". -/
def specQueryTokens (s : EnrichmentState) (strategy : SearchStrategyType)
    (d : Date) : List String :=
  (match s.location with
   | some loc => if loc ≠ "" then [loc] else []
   | none => [])
  ++ ["Texas police shooting"]
  ++ [match strategy with
      | .EXACT_MATCH => d.fmtISO
      | .TEMPORAL_EXPANDED => d.fmtMonthYear
      | .ENTITY_DROPPED => d.fmtMonthYear]
  ++ (match strategy with
      | .ENTITY_DROPPED => []
      | _ =>
          (match s.officer_name with
           | some o => if o ≠ "" then [o] else []
           | none => [])
          ++ (match s.civilian_name with
              | some c => if c ≠ "" then [c] else []
              | none => []))
  ++ (if s.severity = some "fatal" then ["fatal"] else [])

theorem pyTruthyTokens (o : Option String) :
    (if pyTruthy o then [o.getD ""] else []) =
      (match o with
       | some t => if t ≠ "" then [t] else []
       | none => []) := by
  cases o with
  | none => rfl
  | some t => by_cases h : t = "" <;> simp [pyTruthy, h]

/-- C9: for every state with a set incident date, `build_search_query`
returns exactly the tokens of spec §4.2.1 joined by single spaces. -/
theorem build_search_query_spec (s : EnrichmentState)
    (strategy : SearchStrategyType) (d : Date) (h : s.incident_date = some d) :
    build_search_query s strategy =
      some (String.intercalate " " (specQueryTokens s strategy d)) := by
  unfold build_search_query specQueryTokens
  rw [h]
  have hsev : (if s.severity = some "fatal" then [s.severity.getD ""] else [])
      = (if s.severity = some "fatal" then ["fatal"] else []) := by
    by_cases hs : s.severity = some "fatal" <;> simp [hs]
  cases strategy <;>
    simp only [Option.map_some', pyTruthyTokens, hsev] <;>
    simp [pyTruthy]

/-- Witness for C9 at the `build_search_query` docstring example. -/
theorem build_search_query_spec_witness :
    build_search_query
      { incident_id := "142", dataset_type := .CIVILIANS_SHOT,
        location := some "Houston", incident_date := some ⟨2018, 3, 15⟩,
        officer_name := some "James Rodriguez", severity := some "fatal" }
      .EXACT_MATCH
    = some (String.intercalate " "
        (specQueryTokens
          { incident_id := "142", dataset_type := .CIVILIANS_SHOT,
            location := some "Houston", incident_date := some ⟨2018, 3, 15⟩,
            officer_name := some "James Rodriguez", severity := some "fatal" }
          .EXACT_MATCH ⟨2018, 3, 15⟩)) :=
  build_search_query_spec _ .EXACT_MATCH ⟨2018, 3, 15⟩ rfl

/-! ### Claim C8: per-article validation results -/

/-- C8: every `ValidationResult` produced by the Validate node has
`date_match` true exactly when both dates are present and at most
3 days apart, `victim_name_match` unknown (`none`, not `false`) whenever
the baseline civilian name is null, and `passed` equal to the
conjunction of `date_match` and `location_match`. -/
theorem validate_results_spec (s : EnrichmentState) (r : ValidationResult)
    (hr : r ∈ (validate_node s).validation_results) :
    (r.date_match = true ↔
      ∃ pa ia, r.article.published_date = some pa ∧ s.incident_date = some ia
        ∧ (dateDiffDays pa ia).natAbs ≤ 3)
    ∧ (s.civilian_name = none → r.victim_name_match = none)
    ∧ r.passed = (r.date_match && r.location_match) := by
  simp only [validate_node, List.mem_map] at hr
  obtain ⟨a, -, rfl⟩ := hr
  refine ⟨?_, ?_, ?_⟩
  · simp only [validateArticle]
    unfold check_date_match
    cases hpa : a.published_date with
    | none => simp
    | some pa =>
        cases hia : s.incident_date with
        | none => simp
        | some ia => simp [decide_eq_true_eq]
  · intro hc
    simp [validateArticle, hc]
  · simp [validateArticle]

/-- Witness for C8: a concrete article dated 3 days after the incident. -/
theorem validate_results_spec_witness :
    let a : Article := { url := "u", title := "t", snippet := "",
                         published_date := some ⟨2018, 3, 18⟩ }
    let s : EnrichmentState :=
      { incident_id := "1", dataset_type := .CIVILIANS_SHOT,
        incident_date := some ⟨2018, 3, 15⟩, retrieved_articles := [a] }
    let r := validateArticle s a
    (r.date_match = true ↔
      ∃ pa ia, r.article.published_date = some pa ∧ s.incident_date = some ia
        ∧ (dateDiffDays pa ia).natAbs ≤ 3)
    ∧ (s.civilian_name = none → r.victim_name_match = none)
    ∧ r.passed = (r.date_match && r.location_match) :=
  validate_results_spec _ _ (by simp [validate_node])

/-! ### Claim C3: search-node error handling -/

/-- A state whose `incident_date` is null but which the coordinator
routes to SEARCH after extraction (the baseline civilian name is set). -/
def nullDateState : EnrichmentState :=
  { incident_id := "142", dataset_type := .CIVILIANS_SHOT,
    civilian_name := some "John Doe", location := some "Houston" }

/-- C3 divergence: on a state with null `incident_date` the search node
never returns a state at all — `build_search_query` is called before the
`try` block and its `incident_date.strftime` raises `AttributeError` to
the caller — for every possible outcome of the web call.  The claim
(and the spec's propagation policy) say the node should return normally
with a "Search failed: …" message and a recorded failed attempt. -/
theorem search_node_raises_on_null_incident_date :
    ∀ tavily, search_node tavily nullDateState = none :=
  fun _ => rfl

/-! ### Claim C7: the reference cross-check -/

theorem check_articles_match_ne_nil (f : MediaFeatureField)
    (l : List FieldExtraction) (w : Option FieldExtraction)
    (h : check_articles_match f l = (true, w)) : l.isEmpty = false := by
  cases l with
  | nil => simp [check_articles_match] at h
  | cons a as => simp

/-- C7: the reference cross-check applies exactly to `officer_name` and
`civilian_name`; a null baseline admits the converged extraction
unchanged; a baseline within fuzzy ratio ≥ 80 admits it with its value
overwritten by the baseline string; a baseline below 80 appends the
field to `conflicting_fields` while still admitting the converged
extraction with its original value; fields outside the mapping skip the
check. -/
theorem reference_crosscheck_spec :
    (∀ f, FIELD_TO_STATE_ATTR f = none ↔ (f ≠ .OFFICER_NAME ∧ f ≠ .CIVILIAN_NAME))
    ∧ (∀ (f : MediaFeatureField) (w : FieldExtraction),
        check_reference_match f w none = (true, some w))
    ∧ (∀ (f : MediaFeatureField) (w : FieldExtraction) (ref : String),
        RAPIDFUZZ_THRESHOLD ≤ fuzzSimOpt ref w.value →
        check_reference_match f w (some ref) = (true, some { w with value := some ref }))
    ∧ (∀ (f : MediaFeatureField) (w : FieldExtraction) (ref : String),
        fuzzSimOpt ref w.value < RAPIDFUZZ_THRESHOLD →
        check_reference_match f w (some ref) = (false, none))
    ∧ (∀ (s : EnrichmentState) (f : MediaFeatureField) extraction conv,
        FIELD_TO_STATE_ATTR f = none →
        check_articles_match f extraction = (true, some conv) →
        mergeFieldOutcome s f extraction = (some conv, false))
    ∧ (∀ (s : EnrichmentState) (f : MediaFeatureField) extraction conv attr,
        FIELD_TO_STATE_ATTR f = some attr →
        getStateAttr s attr = none →
        check_articles_match f extraction = (true, some conv) →
        mergeFieldOutcome s f extraction = (some conv, false))
    ∧ (∀ (s : EnrichmentState) (f : MediaFeatureField) extraction conv attr ref,
        FIELD_TO_STATE_ATTR f = some attr →
        getStateAttr s attr = some ref →
        RAPIDFUZZ_THRESHOLD ≤ fuzzSimOpt ref conv.value →
        check_articles_match f extraction = (true, some conv) →
        mergeFieldOutcome s f extraction = (some { conv with value := some ref }, false))
    ∧ (∀ (s : EnrichmentState) (f : MediaFeatureField) extraction conv attr ref,
        FIELD_TO_STATE_ATTR f = some attr →
        getStateAttr s attr = some ref →
        fuzzSimOpt ref conv.value < RAPIDFUZZ_THRESHOLD →
        check_articles_match f extraction = (true, some conv) →
        mergeFieldOutcome s f extraction = (some conv, true)) := by
  refine ⟨?_, ?_, ?_, ?_, ?_, ?_, ?_, ?_⟩
  · intro f; cases f <;> simp [FIELD_TO_STATE_ATTR]
  · intro f w; rfl
  · intro f w ref h
    simp [check_reference_match, not_lt.mpr h]
  · intro f w ref h
    simp [check_reference_match, h]
  · intro s f extraction conv hattr ham
    have hne := check_articles_match_ne_nil f extraction _ ham
    simp [mergeFieldOutcome, hne, ham, hattr]
  · intro s f extraction conv attr hattr href ham
    have hne := check_articles_match_ne_nil f extraction _ ham
    simp [mergeFieldOutcome, hne, ham, hattr, href, check_reference_match]
  · intro s f extraction conv attr ref hattr href h ham
    have hne := check_articles_match_ne_nil f extraction _ ham
    simp [mergeFieldOutcome, hne, ham, hattr, href, check_reference_match, not_lt.mpr h]
  · intro s f extraction conv attr ref hattr href h ham
    have hne := check_articles_match_ne_nil f extraction _ ham
    simp [mergeFieldOutcome, hne, ham, hattr, href, check_reference_match, h]

/-- Witness for C7 at concrete inputs: a `weapon` extraction skips the
check; an `officer_name` extraction is overwritten by a matching
baseline, and flagged-but-admitted under a mismatching baseline. -/
theorem reference_crosscheck_spec_witness :
    mergeFieldOutcome
      { incident_id := "1", dataset_type := .CIVILIANS_SHOT }
      .WEAPON [{ field_name := "weapon", value := some "ab", confidence := .PENDING }]
      = (some { field_name := "weapon", value := some "ab", confidence := .MEDIUM }, false)
    ∧ mergeFieldOutcome
      { incident_id := "1", dataset_type := .CIVILIANS_SHOT, officer_name := some "abc" }
      .OFFICER_NAME
      [{ field_name := "officer_name", value := some "ab", confidence := .PENDING }]
      = (some { field_name := "officer_name", value := some "abc", confidence := .MEDIUM }, false)
    ∧ mergeFieldOutcome
      { incident_id := "1", dataset_type := .CIVILIANS_SHOT, officer_name := some "xyz" }
      .OFFICER_NAME
      [{ field_name := "officer_name", value := some "ab", confidence := .PENDING }]
      = (some { field_name := "officer_name", value := some "ab", confidence := .MEDIUM }, true) :=
  ⟨reference_crosscheck_spec.2.2.2.2.1
     { incident_id := "1", dataset_type := .CIVILIANS_SHOT }
     .WEAPON
     [{ field_name := "weapon", value := some "ab", confidence := .PENDING }]
     { field_name := "weapon", value := some "ab", confidence := .MEDIUM }
     rfl (by decide),
   reference_crosscheck_spec.2.2.2.2.2.2.1
     { incident_id := "1", dataset_type := .CIVILIANS_SHOT, officer_name := some "abc" }
     .OFFICER_NAME
     [{ field_name := "officer_name", value := some "ab", confidence := .PENDING }]
     { field_name := "officer_name", value := some "ab", confidence := .MEDIUM }
     "officer_name" "abc" rfl (by decide) (by decide) (by decide),
   reference_crosscheck_spec.2.2.2.2.2.2.2
     { incident_id := "1", dataset_type := .CIVILIANS_SHOT, officer_name := some "xyz" }
     .OFFICER_NAME
     [{ field_name := "officer_name", value := some "ab", confidence := .PENDING }]
     { field_name := "officer_name", value := some "ab", confidence := .MEDIUM }
     "officer_name" "xyz" rfl (by decide) (by decide) (by decide)⟩

/-! ### Lemmas about `firstUniques` and `mostCommon` -/

theorem foldl_firstUniques_mem (vs : List String) :
    ∀ (acc : List String) (x : String),
      (x ∈ vs.foldl (fun acc v => if v ∈ acc then acc else acc ++ [v]) acc
        ↔ x ∈ acc ∨ x ∈ vs) := by
  induction vs with
  | nil => intro acc x; simp
  | cons v rest ih =>
      intro acc x
      simp only [List.foldl_cons]
      by_cases hv : v ∈ acc
      · rw [if_pos hv, ih]
        constructor
        · rintro (h | h)
          · exact Or.inl h
          · exact Or.inr (List.mem_cons_of_mem v h)
        · rintro (h | h)
          · exact Or.inl h
          · rcases List.mem_cons.mp h with rfl | h
            · exact Or.inl hv
            · exact Or.inr h
      · rw [if_neg hv, ih]
        simp only [List.mem_append, List.mem_singleton, List.mem_cons]
        tauto

theorem mem_firstUniques (vs : List String) (x : String) :
    x ∈ firstUniques vs ↔ x ∈ vs := by
  unfold firstUniques
  rw [foldl_firstUniques_mem]
  simp

theorem foldl_firstUniques_absorb (vs : List String) :
    ∀ (acc : List String), (∀ v ∈ vs, v ∈ acc) →
      vs.foldl (fun acc v => if v ∈ acc then acc else acc ++ [v]) acc = acc := by
  induction vs with
  | nil => intro acc _; rfl
  | cons v rest ih =>
      intro acc h
      simp only [List.foldl_cons, if_pos (h v (List.mem_cons_self v rest))]
      exact ih acc (fun u hu => h u (List.mem_cons_of_mem v hu))

theorem firstUniques_all_eq (vs : List String) (a : String)
    (h : ∀ v ∈ vs, v = a) (hne : vs ≠ []) : firstUniques vs = [a] := by
  obtain ⟨b, t, rfl⟩ : ∃ b t, vs = b :: t := by
    cases vs with
    | nil => exact absurd rfl hne
    | cons b t => exact ⟨b, t, rfl⟩
  have hba : b = a := h b (List.mem_cons_self b t)
  subst hba
  unfold firstUniques
  rw [List.foldl_cons, if_neg (List.not_mem_nil b), List.nil_append]
  exact foldl_firstUniques_absorb t [b]
    (fun u hu => by rw [h u (List.mem_cons_of_mem b hu)]; exact List.mem_singleton.mpr rfl)

theorem firstUniques_length_one (vs : List String) (hne : vs ≠ [])
    (heq : ∀ v w, v ∈ vs → w ∈ vs → v = w) : (firstUniques vs).length = 1 := by
  obtain ⟨b, t, rfl⟩ : ∃ b t, vs = b :: t := by
    cases vs with
    | nil => exact absurd rfl hne
    | cons b t => exact ⟨b, t, rfl⟩
  rw [firstUniques_all_eq _ b (fun v hv => heq v b hv (List.mem_cons_self b t)) hne]
  rfl

theorem all_eq_of_firstUniques_length_one (vs : List String)
    (h : (firstUniques vs).length = 1) : ∀ v w, v ∈ vs → w ∈ vs → v = w := by
  obtain ⟨a, ha⟩ := List.length_eq_one.mp h
  intro v w hv hw
  have hv' := (mem_firstUniques vs v).mpr hv
  have hw' := (mem_firstUniques vs w).mpr hw
  rw [ha, List.mem_singleton] at hv' hw'
  rw [hv', hw']

theorem foldl_pick_mem (vs : List String) :
    ∀ (rest : List String) (b : String),
      (rest.foldl (fun best u => if vs.count best < vs.count u then u else best) b) = b
      ∨ (rest.foldl (fun best u => if vs.count best < vs.count u then u else best) b) ∈ rest := by
  intro rest
  induction rest with
  | nil => intro b; exact Or.inl rfl
  | cons u rest' ih =>
      intro b
      simp only [List.foldl_cons]
      rcases ih (if vs.count b < vs.count u then u else b) with h | h
      · rw [h]
        by_cases hc : vs.count b < vs.count u
        · rw [if_pos hc]; exact Or.inr (List.mem_cons_self u rest')
        · rw [if_neg hc]; exact Or.inl rfl
      · exact Or.inr (List.mem_cons_of_mem u h)

theorem foldl_pick_count (vs : List String) :
    ∀ (rest : List String) (b : String),
      vs.count b ≤ vs.count (rest.foldl
        (fun best u => if vs.count best < vs.count u then u else best) b)
      ∧ ∀ u ∈ rest, vs.count u ≤ vs.count (rest.foldl
        (fun best u => if vs.count best < vs.count u then u else best) b) := by
  intro rest
  induction rest with
  | nil => intro b; exact ⟨le_rfl, by simp⟩
  | cons u rest' ih =>
      intro b
      simp only [List.foldl_cons]
      obtain ⟨h1, h2⟩ := ih (if vs.count b < vs.count u then u else b)
      constructor
      · refine le_trans ?_ h1
        by_cases hc : vs.count b < vs.count u
        · rw [if_pos hc]; exact le_of_lt hc
        · rw [if_neg hc]
      · intro x hx
        rcases List.mem_cons.mp hx with rfl | hx
        · refine le_trans ?_ h1
          by_cases hc : vs.count b < vs.count x
          · rw [if_pos hc]
          · rw [if_neg hc]; exact le_of_not_lt hc
        · exact h2 x hx

theorem mostCommon_mem (vs : List String) (hne : vs ≠ []) : mostCommon vs ∈ vs := by
  unfold mostCommon
  cases hfu : firstUniques vs with
  | nil =>
      exfalso
      obtain ⟨b, t, rfl⟩ : ∃ b t, vs = b :: t := by
        cases vs with
        | nil => exact absurd rfl hne
        | cons b t => exact ⟨b, t, rfl⟩
      have := (mem_firstUniques (b :: t) b).mpr (List.mem_cons_self b t)
      rw [hfu] at this
      exact List.not_mem_nil b this
  | cons a rest =>
      show rest.foldl (fun best u => if vs.count best < vs.count u then u else best) a ∈ vs
      rcases foldl_pick_mem vs rest a with h | h
      · rw [h]
        exact (mem_firstUniques vs a).mp (hfu ▸ List.mem_cons_self a rest)
      · exact (mem_firstUniques vs _).mp (hfu ▸ List.mem_cons_of_mem a h)

theorem mostCommon_count_ge (vs : List String) (v : String) (hv : v ∈ vs) :
    vs.count v ≤ vs.count (mostCommon vs) := by
  unfold mostCommon
  cases hfu : firstUniques vs with
  | nil =>
      exfalso
      have := (mem_firstUniques vs v).mpr hv
      rw [hfu] at this
      exact List.not_mem_nil v this
  | cons a rest =>
      show vs.count v ≤ vs.count
        (rest.foldl (fun best u => if vs.count best < vs.count u then u else best) a)
      have hv' := (mem_firstUniques vs v).mpr hv
      rw [hfu, List.mem_cons] at hv'
      obtain ⟨h1, h2⟩ := foldl_pick_count vs rest a
      rcases hv' with rfl | hv'
      · exact h1
      · exact h2 v hv'

/-! ### Claim C6: cross-article reconciliation -/

/-- C6 counterexample: a field whose only extraction has a null value is
not omitted — `check_articles_match` returns `(False, None)` and
`merge_node` records the field in `conflicting_fields`. -/
theorem merge_all_null_conflict_cex :
    (merge_node { incident_id := "1", dataset_type := .CIVILIANS_SHOT }
      (fun f => if f = .WEAPON
        then [{ field_name := "weapon", value := none, confidence := .PENDING }]
        else [])).conflicting_fields = some ["weapon"]
    ∧ (merge_node { incident_id := "1", dataset_type := .CIVILIANS_SHOT }
      (fun f => if f = .WEAPON
        then [{ field_name := "weapon", value := none, confidence := .PENDING }]
        else [])).extracted_fields = []
    ∧ (merge_node { incident_id := "1", dataset_type := .CIVILIANS_SHOT }
      (fun f => if f = .WEAPON
        then [{ field_name := "weapon", value := none, confidence := .PENDING }]
        else [])).error_message = none := by
  decide

/-- C6 (amended): per-field reconciliation first drops null-valued
extractions.  A field with no extractions at all is omitted entirely;
a field whose extractions are all null is recorded in
`conflicting_fields` with nothing admitted (amended from "omitted").
One remaining extraction is admitted with MEDIUM; several all-equal
remaining values admit the first with HIGH; otherwise the first
extraction carrying a plurality-winner value is admitted with MEDIUM
exactly when every other distinct remaining value is within fuzzy ratio
≥ 80 of the winner, and the field is recorded in `conflicting_fields`
with nothing admitted when some distinct value falls below 80.
`mostCommon` really is a plurality winner: it occurs among the values
and its count is maximal. -/
theorem merge_reconciliation_spec (s : EnrichmentState) (f : MediaFeatureField)
    (l : List FieldExtraction) :
    (l = [] → mergeFieldOutcome s f l = (none, false))
    ∧ (l ≠ [] → l.filter (fun r => r.value.isSome) = [] →
        mergeFieldOutcome s f l = (none, true))
    ∧ (∀ e, l.filter (fun r => r.value.isSome) = [e] →
        check_articles_match f l = (true, some { e with confidence := .MEDIUM }))
    ∧ (∀ e rest, l.filter (fun r => r.value.isSome) = e :: rest → rest ≠ [] →
        (∀ v w, v ∈ (e :: rest).filterMap (fun r => r.value) →
          w ∈ (e :: rest).filterMap (fun r => r.value) → v = w) →
        check_articles_match f l = (true, some { e with confidence := .HIGH }))
    ∧ (∀ e rest, l.filter (fun r => r.value.isSome) = e :: rest → rest ≠ [] →
        ¬(∀ v w, v ∈ (e :: rest).filterMap (fun r => r.value) →
            w ∈ (e :: rest).filterMap (fun r => r.value) → v = w) →
        (∀ v ∈ (e :: rest).filterMap (fun r => r.value),
            v ≠ mostCommon ((e :: rest).filterMap (fun r => r.value)) →
            RAPIDFUZZ_THRESHOLD ≤ fuzzSim
              (mostCommon ((e :: rest).filterMap (fun r => r.value))).data v.data) →
        ∃ w ∈ e :: rest,
          w.value = some (mostCommon ((e :: rest).filterMap (fun r => r.value)))
          ∧ check_articles_match f l = (true, some { w with confidence := .MEDIUM }))
    ∧ (∀ e rest, l.filter (fun r => r.value.isSome) = e :: rest → rest ≠ [] →
        (∃ v ∈ (e :: rest).filterMap (fun r => r.value),
            v ≠ mostCommon ((e :: rest).filterMap (fun r => r.value))
            ∧ fuzzSim (mostCommon ((e :: rest).filterMap (fun r => r.value))).data v.data
                < RAPIDFUZZ_THRESHOLD) →
        check_articles_match f l = (false, none)
        ∧ mergeFieldOutcome s f l = (none, true))
    ∧ (∀ vals : List String, vals ≠ [] →
        mostCommon vals ∈ vals
        ∧ ∀ v ∈ vals, vals.count v ≤ vals.count (mostCommon vals)) := by
  have hval_head : ∀ (e : FieldExtraction) (rest : List FieldExtraction),
      l.filter (fun r => r.value.isSome) = e :: rest →
      (e :: rest).filterMap (fun r => r.value) ≠ [] := by
    intro e rest hfil
    have he : e.value.isSome = true := by
      have hmem : e ∈ l.filter (fun r => r.value.isSome) := by
        rw [hfil]; exact List.mem_cons_self e rest
      exact (List.mem_filter.mp hmem).2
    cases hev : e.value with
    | none => rw [hev] at he; cases he
    | some v => simp [List.filterMap_cons, hev]
  have hl_ne : ∀ (e : FieldExtraction) (rest : List FieldExtraction),
      l.filter (fun r => r.value.isSome) = e :: rest → l.isEmpty = false := by
    intro e rest hfil
    cases l with
    | nil => simp at hfil
    | cons a t => rfl
  refine ⟨?_, ?_, ?_, ?_, ?_, ?_, ?_⟩
  · rintro rfl; rfl
  · intro hl hfil
    have hne : l.isEmpty = false := by
      cases l with
      | nil => exact absurd rfl hl
      | cons a t => rfl
    have hcheck : check_articles_match f l = (false, none) := by
      simp only [check_articles_match]
      rw [hfil]
    simp [mergeFieldOutcome, hne, hcheck]
  · intro e hfil
    simp only [check_articles_match]
    rw [hfil]
    rfl
  · intro e rest hfil hrest hall
    have hlen : (firstUniques ((e :: rest).filterMap (fun r => r.value))).length = 1 :=
      firstUniques_length_one _ (hval_head e rest hfil) hall
    have hre : rest.isEmpty = false := by
      cases rest with
      | nil => exact absurd rfl hrest
      | cons a t => rfl
    simp only [check_articles_match]
    rw [hfil]
    simp [hre, hlen]
  · intro e rest hfil hrest hneq hall80
    have hvne := hval_head e rest hfil
    have hlen_ne : ¬((firstUniques ((e :: rest).filterMap (fun r => r.value))).length = 1) :=
      fun h => hneq (all_eq_of_firstUniques_length_one _ h)
    have hmc_mem : mostCommon ((e :: rest).filterMap (fun r => r.value))
        ∈ (e :: rest).filterMap (fun r => r.value) := mostCommon_mem _ hvne
    obtain ⟨w, hw_mem, hw_val⟩ := List.mem_filterMap.mp hmc_mem
    have hfind : ((e :: rest).find?
        (fun r => decide (r.value
          = some (mostCommon ((e :: rest).filterMap (fun r => r.value)))))).isSome := by
      rw [List.find?_isSome]
      exact ⟨w, hw_mem, by simp [hw_val]⟩
    obtain ⟨w', hw'⟩ := Option.isSome_iff_exists.mp hfind
    have hw'_mem := List.mem_of_find?_eq_some hw'
    have hw'_val : w'.value
        = some (mostCommon ((e :: rest).filterMap (fun r => r.value))) := by
      have := List.find?_some hw'
      simpa using this
    have hre : rest.isEmpty = false := by
      cases rest with
      | nil => exact absurd rfl hrest
      | cons a t => rfl
    refine ⟨w', hw'_mem, hw'_val, ?_⟩
    simp only [check_articles_match]
    rw [hfil]
    simp [hre, hlen_ne, hw']
    intro x hx hxne
    exact hall80 x ((mem_firstUniques _ _).mp hx) hxne
  · intro e rest hfil hrest hex
    obtain ⟨v, hv_mem, hv_ne, hv_lt⟩ := hex
    have hvne := hval_head e rest hfil
    have hmc_mem := mostCommon_mem _ hvne
    have hlen_ne : ¬((firstUniques ((e :: rest).filterMap (fun r => r.value))).length = 1) := by
      intro h
      exact hv_ne (all_eq_of_firstUniques_length_one _ h v _ hv_mem hmc_mem)
    have hre : rest.isEmpty = false := by
      cases rest with
      | nil => exact absurd rfl hrest
      | cons a t => rfl
    have hcheck : check_articles_match f l = (false, none) := by
      simp only [check_articles_match]
      rw [hfil]
      simp [hre, hlen_ne]
      intro hcond
      exfalso
      rcases hcond v ((mem_firstUniques _ _).mpr hv_mem) with h | h
      · exact hv_ne h
      · exact absurd h (not_le.mpr hv_lt)
    exact ⟨hcheck, by simp [mergeFieldOutcome, hl_ne e rest hfil, hcheck]⟩
  · intro vals hvne
    exact ⟨mostCommon_mem vals hvne, fun v hv => mostCommon_count_ge vals v hv⟩

/-- Witness for the amended C6 theorem at concrete inputs: an all-null
field conflicts; a single extraction converges with MEDIUM; a plurality
winner within ratio ≥ 80 of every other distinct value converges with
MEDIUM; an outlier below 80 conflicts. -/
theorem merge_reconciliation_spec_witness :
    mergeFieldOutcome { incident_id := "1", dataset_type := .CIVILIANS_SHOT } .WEAPON
      [{ field_name := "weapon", value := none, confidence := .PENDING }] = (none, true)
    ∧ check_articles_match .WEAPON
        [{ field_name := "weapon", value := some "gun", confidence := .PENDING }]
      = (true, some { field_name := "weapon", value := some "gun", confidence := .MEDIUM })
    ∧ (∃ w ∈ [({ field_name := "weapon", value := some "gun", confidence := .PENDING } : FieldExtraction),
               { field_name := "weapon", value := some "gun", confidence := .PENDING },
               { field_name := "weapon", value := some "guns", confidence := .PENDING }],
        w.value = some (mostCommon
          (([({ field_name := "weapon", value := some "gun", confidence := .PENDING } : FieldExtraction),
             { field_name := "weapon", value := some "gun", confidence := .PENDING },
             { field_name := "weapon", value := some "guns", confidence := .PENDING }]).filterMap
            (fun r => r.value)))
        ∧ check_articles_match .WEAPON
            [{ field_name := "weapon", value := some "gun", confidence := .PENDING },
             { field_name := "weapon", value := some "gun", confidence := .PENDING },
             { field_name := "weapon", value := some "guns", confidence := .PENDING }]
          = (true, some { w with confidence := .MEDIUM }))
    ∧ (check_articles_match .WEAPON
        [{ field_name := "weapon", value := some "gun", confidence := .PENDING },
         { field_name := "weapon", value := some "gun", confidence := .PENDING },
         { field_name := "weapon", value := some "axe", confidence := .PENDING }]
        = (false, none)
      ∧ mergeFieldOutcome { incident_id := "1", dataset_type := .CIVILIANS_SHOT } .WEAPON
        [{ field_name := "weapon", value := some "gun", confidence := .PENDING },
         { field_name := "weapon", value := some "gun", confidence := .PENDING },
         { field_name := "weapon", value := some "axe", confidence := .PENDING }]
        = (none, true)) :=
  ⟨(merge_reconciliation_spec { incident_id := "1", dataset_type := .CIVILIANS_SHOT }
      .WEAPON _).2.1 (by decide) (by decide),
   (merge_reconciliation_spec { incident_id := "1", dataset_type := .CIVILIANS_SHOT }
      .WEAPON _).2.2.1
      { field_name := "weapon", value := some "gun", confidence := .PENDING } (by decide),
   (merge_reconciliation_spec { incident_id := "1", dataset_type := .CIVILIANS_SHOT }
      .WEAPON _).2.2.2.2.1
      { field_name := "weapon", value := some "gun", confidence := .PENDING }
      [{ field_name := "weapon", value := some "gun", confidence := .PENDING },
       { field_name := "weapon", value := some "guns", confidence := .PENDING }]
      (by decide) (by decide)
      (by intro h
          exact absurd (h "gun" "guns" (by decide) (by decide)) (by decide))
      (by decide),
   (merge_reconciliation_spec { incident_id := "1", dataset_type := .CIVILIANS_SHOT }
      .WEAPON _).2.2.2.2.2.1
      { field_name := "weapon", value := some "gun", confidence := .PENDING }
      [{ field_name := "weapon", value := some "gun", confidence := .PENDING },
       { field_name := "weapon", value := some "axe", confidence := .PENDING }]
      (by decide) (by decide) (by decide)⟩

/-! ### Claim C1: field disjointness of the two merge outputs -/

/-- C1 counterexample: a converged `officer_name` extraction that
disagrees with a non-null baseline ends up in `extracted_fields` *and*
its field name in `conflicting_fields`, in a run that does not fail. -/
theorem merge_field_in_both_cex :
    (merge_node
      { incident_id := "1", dataset_type := .CIVILIANS_SHOT, officer_name := some "Bob" }
      (fun f => if f = .OFFICER_NAME
        then [{ field_name := "officer_name", value := some "Max", confidence := .PENDING }]
        else [])).conflicting_fields = some ["officer_name"]
    ∧ (merge_node
      { incident_id := "1", dataset_type := .CIVILIANS_SHOT, officer_name := some "Bob" }
      (fun f => if f = .OFFICER_NAME
        then [{ field_name := "officer_name", value := some "Max", confidence := .PENDING }]
        else [])).extracted_fields
      = [{ field_name := "officer_name", value := some "Max", confidence := .MEDIUM }]
    ∧ (merge_node
      { incident_id := "1", dataset_type := .CIVILIANS_SHOT, officer_name := some "Bob" }
      (fun f => if f = .OFFICER_NAME
        then [{ field_name := "officer_name", value := some "Max", confidence := .PENDING }]
        else [])).error_message = none := by
  decide

theorem merge_foldl_spec (s : EnrichmentState)
    (ext : MediaFeatureField → List FieldExtraction) (l9 : List MediaFeatureField) :
    ∀ (acc : List FieldExtraction × List String),
      l9.foldl (fun acc field_name =>
        let r := mergeFieldOutcome s field_name (ext field_name)
        (acc.1 ++ r.1.toList, acc.2 ++ (if r.2 then [field_name.val] else []))) acc
      = (acc.1 ++ l9.filterMap (fun g => (mergeFieldOutcome s g (ext g)).1),
         acc.2 ++ (l9.filter (fun g => (mergeFieldOutcome s g (ext g)).2)).map
           MediaFeatureField.val) := by
  induction l9 with
  | nil => intro acc; simp
  | cons g t ih =>
      intro acc
      simp only [List.foldl_cons]
      rw [ih]
      rcases hadm : (mergeFieldOutcome s g (ext g)).1 with - | e <;>
        rcases hcon : (mergeFieldOutcome s g (ext g)).2 <;>
          simp [List.filterMap_cons, List.filter_cons, hadm, hcon]

theorem merge_node_results (s : EnrichmentState)
    (ext : MediaFeatureField → List FieldExtraction) :
    (merge_node s ext).extracted_fields
      = s.extracted_fields
        ++ MEDIA_FEATURE_FIELDS.filterMap (fun g => (mergeFieldOutcome s g (ext g)).1)
    ∧ (merge_node s ext).conflicting_fields
      = some ((MEDIA_FEATURE_FIELDS.filter
          (fun g => (mergeFieldOutcome s g (ext g)).2)).map MediaFeatureField.val) := by
  unfold merge_node
  rw [merge_foldl_spec]
  simp

theorem check_articles_match_field_name (f : MediaFeatureField)
    (l : List FieldExtraction) (b : Bool) (w : FieldExtraction)
    (h : check_articles_match f l = (b, some w)) : ∃ x ∈ l, w.field_name = x.field_name := by
  simp only [check_articles_match] at h
  cases hfil : l.filter (fun r => r.value.isSome) with
  | nil => rw [hfil] at h; simp at h
  | cons result rest =>
      rw [hfil] at h
      have hres : result ∈ l :=
        List.mem_of_mem_filter (by rw [hfil]; exact List.mem_cons_self result rest)
      simp only at h
      split at h
      · simp only [Prod.mk.injEq, Option.some.injEq] at h
        exact ⟨result, hres, by rw [← h.2]⟩
      · split at h
        · simp only [Prod.mk.injEq, Option.some.injEq] at h
          exact ⟨result, hres, by rw [← h.2]⟩
        · split at h
          · split at h
            · rename_i winner hwin
              simp only [Prod.mk.injEq, Option.some.injEq] at h
              have hwl : winner ∈ l := by
                have := List.mem_of_find?_eq_some hwin
                exact List.mem_of_mem_filter (by rw [hfil]; exact this)
              exact ⟨winner, hwl, by rw [← h.2]⟩
            · simp at h
          · simp at h

theorem check_reference_match_field_name (f : MediaFeatureField)
    (w : FieldExtraction) (ref : Option String) (b : Bool) (e : FieldExtraction)
    (h : check_reference_match f w ref = (b, some e)) : e.field_name = w.field_name := by
  cases ref with
  | none =>
      simp only [check_reference_match, Prod.mk.injEq, Option.some.injEq] at h
      rw [← h.2]
  | some r =>
      simp only [check_reference_match] at h
      split at h
      · simp at h
      · simp only [Prod.mk.injEq, Option.some.injEq] at h
        rw [← h.2]

theorem val_injective (f g : MediaFeatureField)
    (h : f.val = g.val) : f = g := by
  revert h
  revert f g
  decide

theorem mergeFieldOutcome_field_name (s : EnrichmentState) (g : MediaFeatureField)
    (l : List FieldExtraction) (e : FieldExtraction)
    (hg : ∀ x ∈ l, x.field_name = g.val)
    (h : (mergeFieldOutcome s g l).1 = some e) : e.field_name = g.val := by
  rcases ham : check_articles_match g l with ⟨b, conv⟩
  simp only [mergeFieldOutcome, ham] at h
  split at h
  · simp at h
  · split at h
    · cases conv with
      | none => simp at h
      | some c =>
          have hc : c.field_name = g.val := by
            obtain ⟨x, hx, hcx⟩ := check_articles_match_field_name g l b c ham
            rw [hcx]; exact hg x hx
          simp only at h
          split at h
          · rename_i attr hattr
            split at h
            · rename_i href
              rcases hrm : (check_reference_match g c (getStateAttr s attr)).2 with - | e'
              · rw [hrm] at h; simp at h
                rw [← h, hc]
              · rw [hrm] at h; simp at h
                have : e'.field_name = c.field_name := by
                  rcases hcr : check_reference_match g c (getStateAttr s attr) with ⟨b', conv'⟩
                  rw [hcr] at hrm
                  simp at hrm
                  exact check_reference_match_field_name g c _ b' e' (by rw [hcr, hrm])
                rw [← h, this, hc]
            · simp at h
              rw [← h, hc]
          · simp at h
            rw [← h, hc]
    · simp at h

theorem mergeFieldOutcome_both_reference (s : EnrichmentState)
    (g : MediaFeatureField) (l : List FieldExtraction) (e : FieldExtraction)
    (h1 : (mergeFieldOutcome s g l).1 = some e)
    (h2 : (mergeFieldOutcome s g l).2 = true) :
    FIELD_TO_STATE_ATTR g ≠ none := by
  intro hattr
  rcases ham : check_articles_match g l with ⟨b, conv⟩
  cases hL : l.isEmpty <;> cases b <;> rcases conv with - | c <;>
    simp_all [mergeFieldOutcome]

/-- C1 (amended): in a single non-failing merge run started from a state
with empty `extracted_fields`, and with the LLM extractions grouped under
their own field names, a field name appearing both in
`conflicting_fields` and as the `field_name` of an admitted extraction
can only be `officer_name` or `civilian_name` — the two fields subject to
the reference cross-check, whose conflict path admits the converged
extraction while flagging the field.  Every other field name appears in
at most one of the two outputs. -/
theorem merge_field_disjoint_except_reference (s : EnrichmentState)
    (ext : MediaFeatureField → List FieldExtraction)
    (hgroup : ∀ f, ∀ x ∈ ext f, x.field_name = f.val)
    (hinit : s.extracted_fields = [])
    (f : MediaFeatureField)
    (hconf : f.val ∈ ((merge_node s ext).conflicting_fields.getD []))
    (hex : ∃ e ∈ (merge_node s ext).extracted_fields, e.field_name = f.val) :
    f = .OFFICER_NAME ∨ f = .CIVILIAN_NAME := by
  obtain ⟨hext_eq, hconf_eq⟩ := merge_node_results s ext
  rw [hconf_eq] at hconf
  simp only [Option.getD_some] at hconf
  rw [hext_eq, hinit, List.nil_append] at hex
  obtain ⟨g, hg_mem, hgval⟩ := List.mem_map.mp hconf
  have hg_filter := List.mem_filter.mp hg_mem
  have hgf : g = f := val_injective g f hgval
  subst hgf
  obtain ⟨e, he_mem, he_name⟩ := hex
  obtain ⟨g', hg'_mem, hg'_out⟩ := List.mem_filterMap.mp he_mem
  have hg'_name : e.field_name = g'.val :=
    mergeFieldOutcome_field_name s g' (ext g') e (hgroup g') hg'_out
  have hg'f : g' = g := val_injective g' g (by rw [← hg'_name, he_name, hgval])
  subst hg'f
  have hattr := mergeFieldOutcome_both_reference s g' (ext g') e hg'_out hg_filter.2
  cases g' with
  | OFFICER_NAME => exact Or.inl rfl
  | CIVILIAN_NAME => exact Or.inr rfl
  | CIVILIAN_AGE => exact absurd rfl hattr
  | CIVILIAN_RACE => exact absurd rfl hattr
  | WEAPON => exact absurd rfl hattr
  | LOCATION_DETAIL => exact absurd rfl hattr
  | TIME_OF_DAY => exact absurd rfl hattr
  | OUTCOME => exact absurd rfl hattr
  | CIRCUMSTANCE => exact absurd rfl hattr

/-- Witness for the amended C1 theorem at the concrete reference-conflict
input: the overlapping field is indeed `officer_name`. -/
theorem merge_field_disjoint_except_reference_witness :
    MediaFeatureField.OFFICER_NAME = .OFFICER_NAME
    ∨ MediaFeatureField.OFFICER_NAME = .CIVILIAN_NAME :=
  merge_field_disjoint_except_reference
    { incident_id := "1", dataset_type := .CIVILIANS_SHOT, officer_name := some "Bob" }
    (fun f => if f = .OFFICER_NAME
      then [{ field_name := "officer_name", value := some "Max", confidence := .PENDING }]
      else [])
    (by decide) rfl .OFFICER_NAME (by decide) (by decide)

/-! ### Claim C2: coordinator idempotence -/

/-- The routing fields the coordinator owns. -/
def routingFields (s : EnrichmentState) :
    PipelineStage × Nat × SearchStrategyType × Option EscalationReason × Bool :=
  (s.next_stage, s.retry_count, s.next_strategy, s.escalation_reason,
   s.requires_human_review)

/-- `retry_helper` in case form: advance along the ladder, or escalate
from the last strategy. -/
theorem retry_helper_eq (s : EnrichmentState) :
    retry_helper s =
      match s.next_strategy with
      | .EXACT_MATCH =>
          { s with retry_count := s.retry_count + 1,
                   next_strategy := .TEMPORAL_EXPANDED, next_stage := .SEARCH }
      | .TEMPORAL_EXPANDED =>
          { s with retry_count := s.retry_count + 1,
                   next_strategy := .ENTITY_DROPPED, next_stage := .SEARCH }
      | .ENTITY_DROPPED =>
          { s with next_stage := .ESCALATE,
                   escalation_reason := some .MAX_RETRIES,
                   requires_human_review := true } := by
  unfold retry_helper
  cases hs : s.next_strategy <;> rfl

/-- C2 (amended): applying the coordinator twice to a post-stage state
yields the same routing fields as applying it once, provided the first
application does not advance the retry ladder (leaves `retry_count`
unchanged).  On the retry-advance path a second application advances
`retry_count` and `next_strategy` again. -/
theorem coordinate_idempotent_unless_retry (s : EnrichmentState)
    (hstage : s.current_stage = .EXTRACT ∨ s.current_stage = .SEARCH
      ∨ s.current_stage = .VALIDATE ∨ s.current_stage = .MERGE)
    (hrc : (coordinate_node s).retry_count = s.retry_count) :
    routingFields (coordinate_node (coordinate_node s))
      = routingFields (coordinate_node s) := by
  rcases hstage with h | h | h | h
  · by_cases h1 : errorContains s.error_message "Extract failed"
    · simp [coordinate_node, check_extract_results, h, h1, routingFields]
    · by_cases h2 : pyTruthy s.civilian_name || pyTruthy s.officer_name
          || s.incident_date.isSome
      · simp [coordinate_node, check_extract_results, h, h1, h2, routingFields]
      · simp [coordinate_node, check_extract_results, h, h1, h2, routingFields]
  · by_cases h1 : s.retry_count ≤ s.max_retries
    · by_cases h2 : errorContains s.error_message "Search failed"
      · simp only [coordinate_node, h, check_search_results, if_pos h1,
          if_pos h2, retry_helper_eq] at hrc ⊢
        cases hstrat : s.next_strategy
        · rw [hstrat] at hrc; simp at hrc
        · rw [hstrat] at hrc; simp at hrc
        · simp [coordinate_node, h, check_search_results, h1, h2,
                retry_helper_eq, hstrat, routingFields]
      · by_cases h3 : lastAttemptScoreOK s.search_attempts
        · simp [coordinate_node, check_search_results, h, h1, h2, h3,
                routingFields]
        · simp only [coordinate_node, h, check_search_results, if_pos h1,
            if_neg h2, h3, if_neg, Bool.false_eq_true, if_false,
            retry_helper_eq] at hrc ⊢
          cases hstrat : s.next_strategy
          · rw [hstrat] at hrc; simp at hrc
          · rw [hstrat] at hrc; simp at hrc
          · simp [coordinate_node, h, check_search_results, h1, h2, h3,
                  retry_helper_eq, hstrat, routingFields]
    · simp [coordinate_node, check_search_results, h, h1, routingFields]
  · by_cases h1 : s.validation_results.any (fun vr => vr.passed)
    · simp [coordinate_node, check_validate_results, h, h1, routingFields]
    · simp [coordinate_node, check_validate_results, h, h1, routingFields]
  · by_cases h1 : errorContains s.error_message "Merge failed"
    · simp [coordinate_node, check_merge_results, h, h1, routingFields]
    · by_cases h2 : conflictingTruthy s.conflicting_fields
      · simp [coordinate_node, check_merge_results, h, h1, h2, routingFields]
      · by_cases h3 : s.extracted_fields.isEmpty
        · simp [coordinate_node, check_merge_results, h, h1, h2, h3, routingFields]
        · simp [coordinate_node, check_merge_results, h, h1, h2, h3, routingFields]

/-- The state produced by a failing search invocation on a fresh state
(the `Option.getD` fallback is never taken: the search returns a state
because `incident_date` is set). -/
def postSearchErrorState : EnrichmentState :=
  (search_node (.error "boom")
    { incident_id := "1", dataset_type := .CIVILIANS_SHOT,
      incident_date := some ⟨2018, 3, 15⟩ }).getD
    { incident_id := "1", dataset_type := .CIVILIANS_SHOT }

/-- C2 counterexample: on the state just produced by a failing search
invocation, the coordinator's first application advances the retry
ladder, and a second application advances it again — the routing fields
(`retry_count`, `next_strategy`) differ between one and two
applications. -/
theorem coordinate_not_idempotent_cex :
    search_node (.error "boom")
      { incident_id := "1", dataset_type := .CIVILIANS_SHOT,
        incident_date := some ⟨2018, 3, 15⟩ }
      = some postSearchErrorState
    ∧ postSearchErrorState.current_stage = .SEARCH
    ∧ routingFields (coordinate_node (coordinate_node postSearchErrorState))
        ≠ routingFields (coordinate_node postSearchErrorState) := by
  refine ⟨rfl, rfl, ?_⟩
  decide

/-- Witness for the amended C2 theorem on a concrete post-merge state. -/
theorem coordinate_idempotent_unless_retry_witness :
    routingFields (coordinate_node (coordinate_node
      { incident_id := "1", dataset_type := .CIVILIANS_SHOT,
        current_stage := .MERGE, conflicting_fields := some [],
        extracted_fields := [{ field_name := "weapon", value := some "gun",
                               confidence := .HIGH }] }))
      = routingFields (coordinate_node
        { incident_id := "1", dataset_type := .CIVILIANS_SHOT,
          current_stage := .MERGE, conflicting_fields := some [],
          extracted_fields := [{ field_name := "weapon", value := some "gun",
                                 confidence := .HIGH }] }) :=
  coordinate_idempotent_unless_retry _ (by decide) (by decide)

/-! ### Claims C4 and C10: retry bounds along pipeline traversals -/

/-- Position of a strategy in the escalation ladder. -/
def stratIdx : SearchStrategyType → Nat
  | .EXACT_MATCH => 0
  | .TEMPORAL_EXPANDED => 1
  | .ENTITY_DROPPED => 2

theorem stratIdx_le_two (st : SearchStrategyType) : stratIdx st ≤ 2 := by
  cases st <;> simp [stratIdx]

theorem extract_node_retry (o : Except String FetchResult) (s : EnrichmentState) :
    (extract_node o s).retry_count = s.retry_count
    ∧ (extract_node o s).next_strategy = s.next_strategy
    ∧ (extract_node o s).max_retries = s.max_retries := by
  cases o <;> exact ⟨rfl, rfl, rfl⟩

theorem search_node_retry (t : Except String (List TavilyResult))
    (s s' : EnrichmentState) (h : search_node t s = some s') :
    s'.retry_count = s.retry_count
    ∧ s'.next_strategy = s.next_strategy
    ∧ s'.max_retries = s.max_retries := by
  simp only [search_node] at h
  cases hq : build_search_query s s.next_strategy with
  | none => rw [hq] at h; simp at h
  | some q =>
      rw [hq] at h
      cases t with
      | ok results =>
          simp only [Option.some.injEq] at h
          rw [← h]
          exact ⟨rfl, rfl, rfl⟩
      | error e =>
          simp only [Option.some.injEq] at h
          rw [← h]
          exact ⟨rfl, rfl, rfl⟩

theorem coordinate_node_retry (s : EnrichmentState) :
    (coordinate_node s).max_retries = s.max_retries
    ∧ (((coordinate_node s).retry_count = s.retry_count
        ∧ (coordinate_node s).next_strategy = s.next_strategy)
      ∨ ((coordinate_node s).retry_count = s.retry_count + 1
        ∧ stratIdx (coordinate_node s).next_strategy = stratIdx s.next_strategy + 1
        ∧ stratIdx s.next_strategy ≤ 1)) := by
  cases hstage : s.current_stage
  · simp only [coordinate_node, hstage]
    unfold check_extract_results
    split_ifs <;> exact ⟨rfl, Or.inl ⟨rfl, rfl⟩⟩
  · simp only [coordinate_node, hstage]
    unfold check_search_results
    split_ifs
    · rw [retry_helper_eq]
      cases s.next_strategy
      · exact ⟨rfl, Or.inr ⟨rfl, rfl, by simp [stratIdx]⟩⟩
      · exact ⟨rfl, Or.inr ⟨rfl, rfl, by simp [stratIdx]⟩⟩
      · exact ⟨rfl, Or.inl ⟨rfl, rfl⟩⟩
    · exact ⟨rfl, Or.inl ⟨rfl, rfl⟩⟩
    · rw [retry_helper_eq]
      cases s.next_strategy
      · exact ⟨rfl, Or.inr ⟨rfl, rfl, by simp [stratIdx]⟩⟩
      · exact ⟨rfl, Or.inr ⟨rfl, rfl, by simp [stratIdx]⟩⟩
      · exact ⟨rfl, Or.inl ⟨rfl, rfl⟩⟩
    · exact ⟨rfl, Or.inl ⟨rfl, rfl⟩⟩
  · simp only [coordinate_node, hstage]
    unfold check_validate_results
    split_ifs <;> exact ⟨rfl, Or.inl ⟨rfl, rfl⟩⟩
  · simp only [coordinate_node, hstage]
    unfold check_merge_results
    split_ifs <;> exact ⟨rfl, Or.inl ⟨rfl, rfl⟩⟩
  · simp [coordinate_node, hstage]
  · simp [coordinate_node, hstage]

/-- The ladder invariant: along every traversal the retry counter never
exceeds the index of the current strategy, and `max_retries` never
changes. -/
theorem reachable_retry_invariant (s0 : EnrichmentState)
    (h0 : s0.retry_count = 0) (h1 : s0.next_strategy = .EXACT_MATCH)
    (c : GraphNode × EnrichmentState) (hr : Reachable s0 c) :
    c.2.retry_count ≤ stratIdx c.2.next_strategy
    ∧ c.2.max_retries = s0.max_retries := by
  induction hr with
  | refl => simp [h0, h1, stratIdx]
  | tail hsteps hstep ih =>
      cases hstep with
      | extract o s =>
          obtain ⟨e1, e2, e3⟩ := extract_node_retry o s
          exact ⟨by rw [e1, e2]; exact ih.1, by rw [e3]; exact ih.2⟩
      | search t s s' hsome =>
          obtain ⟨e1, e2, e3⟩ := search_node_retry t s s' hsome
          exact ⟨by rw [e1, e2]; exact ih.1, by rw [e3]; exact ih.2⟩
      | validate s => exact ih
      | mergeOk ext s => exact ih
      | mergeFailed msg s => exact ih
      | coordinate s =>
          obtain ⟨hm, hor⟩ := coordinate_node_retry s
          refine ⟨?_, by rw [hm]; exact ih.2⟩
          rcases hor with ⟨ha, hb⟩ | ⟨ha, hb, hc⟩
          · rw [ha, hb]; exact ih.1
          · rw [ha, hb]
            exact Nat.succ_le_succ ih.1
      | complete s => exact ih
      | escalate s => exact ih

/-- C4 (amended): starting from an initial state (`retry_count = 0`,
first strategy) with `max_retries ≥ 2`, every reachable state satisfies
`retry_count ≤ max_retries` (the ladder caps `retry_count` at 2), and
exhausting the ladder — a retry decision at ENTITY_DROPPED — forces
`next_stage = ESCALATE` with reason MAX_RETRIES without touching
`retry_count`. -/
theorem retry_count_le_max_retries (s0 : EnrichmentState)
    (h0 : s0.retry_count = 0) (h1 : s0.next_strategy = .EXACT_MATCH)
    (h2 : 2 ≤ s0.max_retries)
    (c : GraphNode × EnrichmentState) (hr : Reachable s0 c) :
    c.2.retry_count ≤ c.2.max_retries
    ∧ ∀ t : EnrichmentState, t.next_strategy = .ENTITY_DROPPED →
        (retry_helper t).next_stage = .ESCALATE
        ∧ (retry_helper t).escalation_reason = some .MAX_RETRIES
        ∧ (retry_helper t).retry_count = t.retry_count := by
  obtain ⟨hi, hm⟩ := reachable_retry_invariant s0 h0 h1 c hr
  constructor
  · have hs2 := stratIdx_le_two c.2.next_strategy
    omega
  · intro t ht
    rw [retry_helper_eq, ht]
    exact ⟨rfl, rfl, rfl⟩

/-- Witness for the amended C4 theorem at the initial configuration of a
traversal with the default `max_retries = 3`. -/
theorem retry_count_le_max_retries_witness :
    ({ incident_id := "1", dataset_type := .CIVILIANS_SHOT } : EnrichmentState).retry_count
      ≤ ({ incident_id := "1", dataset_type := .CIVILIANS_SHOT } : EnrichmentState).max_retries
    ∧ ∀ t : EnrichmentState, t.next_strategy = .ENTITY_DROPPED →
        (retry_helper t).next_stage = .ESCALATE
        ∧ (retry_helper t).escalation_reason = some .MAX_RETRIES
        ∧ (retry_helper t).retry_count = t.retry_count :=
  retry_count_le_max_retries
    { incident_id := "1", dataset_type := .CIVILIANS_SHOT }
    rfl rfl (by decide) _ Relation.ReflTransGen.refl

/-- Initial state of the C4 counterexample traversal: `max_retries = 1`. -/
def lowMaxState : EnrichmentState :=
  { incident_id := "7", dataset_type := .CIVILIANS_SHOT, max_retries := 1 }

/-- DB outcome for the counterexample traversal: a civilian name and an
incident date, so the coordinator routes to SEARCH. -/
def lowMaxFetch : Except String FetchResult :=
  .ok { officer_name := none, civilian_name := some "John Doe",
        incident_date := some ⟨2018, 3, 15⟩, location := none,
        severity := "unknown" }

def lowMaxS1 : EnrichmentState := extract_node lowMaxFetch lowMaxState
def lowMaxS2 : EnrichmentState := coordinate_node lowMaxS1
def lowMaxS3 : EnrichmentState := (search_node (.ok []) lowMaxS2).getD lowMaxS2
def lowMaxS4 : EnrichmentState := coordinate_node lowMaxS3
def lowMaxS5 : EnrichmentState := (search_node (.ok []) lowMaxS4).getD lowMaxS4
def lowMaxS6 : EnrichmentState := coordinate_node lowMaxS5

/-- C4 counterexample: with `max_retries = 1`, a traversal in which two
empty searches each trigger a retry reaches a state with
`retry_count = 2 > max_retries = 1`; the step that reached
`max_retries + 1` set `next_stage = SEARCH`, not ESCALATE. -/
theorem retry_count_exceeds_max_cex :
    Reachable lowMaxState (.search, lowMaxS6)
    ∧ lowMaxState.retry_count = 0
    ∧ lowMaxState.next_strategy = .EXACT_MATCH
    ∧ lowMaxS6.retry_count = 2
    ∧ lowMaxS6.max_retries = 1
    ∧ lowMaxS6.next_stage = .SEARCH := by
  refine ⟨?_, rfl, rfl, by decide, by decide, by decide⟩
  have t1 : PipelineStep (.extract, lowMaxState) (.coordinate, lowMaxS1) :=
    PipelineStep.extract lowMaxFetch lowMaxState
  have t2 : PipelineStep (.coordinate, lowMaxS1) (.search, lowMaxS2) :=
    PipelineStep.coordinate lowMaxS1
  have t3 : PipelineStep (.search, lowMaxS2) (.coordinate, lowMaxS3) :=
    PipelineStep.search (.ok []) lowMaxS2 lowMaxS3 rfl
  have t4 : PipelineStep (.coordinate, lowMaxS3) (.search, lowMaxS4) :=
    PipelineStep.coordinate lowMaxS3
  have t5 : PipelineStep (.search, lowMaxS4) (.coordinate, lowMaxS5) :=
    PipelineStep.search (.ok []) lowMaxS4 lowMaxS5 rfl
  have t6 : PipelineStep (.coordinate, lowMaxS5) (.search, lowMaxS6) :=
    PipelineStep.coordinate lowMaxS5
  exact Relation.ReflTransGen.tail
    (Relation.ReflTransGen.tail
      (Relation.ReflTransGen.tail
        (Relation.ReflTransGen.tail
          (Relation.ReflTransGen.tail
            (Relation.ReflTransGen.tail Relation.ReflTransGen.refl t1)
            t2) t3) t4) t5) t6

/-- C10: with the default `max_retries = 3`, along every traversal
`retry_count ≤ 2` (ladder length minus one); the after-SEARCH escalation
branch guarded by `retry_count > max_retries` is unreachable; and every
MAX_RETRIES escalation decided after SEARCH is produced by the retry
helper when ENTITY_DROPPED has no successor. -/
theorem retry_ladder_bounds (s0 : EnrichmentState)
    (h0 : s0.retry_count = 0) (h1 : s0.next_strategy = .EXACT_MATCH)
    (c : GraphNode × EnrichmentState) (hr : Reachable s0 c) :
    c.2.retry_count ≤ 2
    ∧ (s0.max_retries = 3 →
        (c.2.current_stage = .SEARCH → ¬(c.2.max_retries < c.2.retry_count))
        ∧ (c.2.current_stage = .SEARCH →
            (coordinate_node c.2).next_stage = .ESCALATE →
            c.2.next_strategy = .ENTITY_DROPPED
            ∧ (coordinate_node c.2).escalation_reason = some .MAX_RETRIES)) := by
  obtain ⟨hi, hm⟩ := reachable_retry_invariant s0 h0 h1 c hr
  have hs2 := stratIdx_le_two c.2.next_strategy
  have hle2 : c.2.retry_count ≤ 2 := le_trans hi hs2
  refine ⟨hle2, fun h2 => ?_⟩
  have hmax : c.2.max_retries = 3 := by rw [hm, h2]
  refine ⟨fun _ => by omega, fun hstage hesc => ?_⟩
  have hle : c.2.retry_count ≤ c.2.max_retries := by omega
  rw [coordinate_node, hstage] at hesc ⊢
  rw [check_search_results, if_pos hle] at hesc ⊢
  by_cases herr : errorContains c.2.error_message "Search failed"
  · rw [if_pos herr] at hesc ⊢
    rw [retry_helper_eq] at hesc ⊢
    cases hstrat : c.2.next_strategy
    · rw [hstrat] at hesc; simp at hesc
    · rw [hstrat] at hesc; simp at hesc
    · exact ⟨rfl, rfl⟩
  · rw [if_neg herr] at hesc ⊢
    by_cases hscore : lastAttemptScoreOK c.2.search_attempts
    · rw [if_pos hscore] at hesc; simp at hesc
    · rw [if_neg hscore] at hesc ⊢
      rw [retry_helper_eq] at hesc ⊢
      cases hstrat : c.2.next_strategy
      · rw [hstrat] at hesc; simp at hesc
      · rw [hstrat] at hesc; simp at hesc
      · exact ⟨rfl, rfl⟩

/-- Witness for C10 at the initial configuration of a default traversal. -/
theorem retry_ladder_bounds_witness :
    ({ incident_id := "1", dataset_type := .CIVILIANS_SHOT } : EnrichmentState).retry_count ≤ 2
    ∧ (({ incident_id := "1", dataset_type := .CIVILIANS_SHOT } : EnrichmentState).max_retries = 3 →
        (({ incident_id := "1", dataset_type := .CIVILIANS_SHOT } : EnrichmentState).current_stage
            = .SEARCH →
          ¬(({ incident_id := "1", dataset_type := .CIVILIANS_SHOT } : EnrichmentState).max_retries
            < ({ incident_id := "1", dataset_type := .CIVILIANS_SHOT } : EnrichmentState).retry_count))
        ∧ (({ incident_id := "1", dataset_type := .CIVILIANS_SHOT } : EnrichmentState).current_stage
            = .SEARCH →
          (coordinate_node
            { incident_id := "1", dataset_type := .CIVILIANS_SHOT }).next_stage = .ESCALATE →
          ({ incident_id := "1", dataset_type := .CIVILIANS_SHOT } : EnrichmentState).next_strategy
            = .ENTITY_DROPPED
          ∧ (coordinate_node
              { incident_id := "1", dataset_type := .CIVILIANS_SHOT }).escalation_reason
            = some .MAX_RETRIES)) :=
  retry_ladder_bounds { incident_id := "1", dataset_type := .CIVILIANS_SHOT }
    rfl rfl _ Relation.ReflTransGen.refl
